import Mathlib

/-!
Verification development for the internships notification bot
(src/mainbot.py). The Python source is shallowly embedded: the
record dataclass becomes a Lean structure, the diff loop inside
InternshipBot.check_roles becomes a recursive function over the
list of current records, and the per-channel delivery state
(failed_channels, channel_failure_counts) of InternshipBot
becomes an explicit state type acted on by a step function.
-/

/-- The InternshipRole dataclass of src/mainbot.py (lines 27-65):
one job listing record. -/
structure InternshipRole where
  title : String
  company_name : String
  locations : List String
  url : String
  season : String
  sponsorship : String
  active : Bool
  is_visible : Bool
deriving DecidableEq

/-- The dictionary shape produced by InternshipRole.to_dict and
consumed by InternshipRole.from_dict: the eight fixed keys of the
JSON object, with the value types the source reads and writes. -/
structure RoleDict where
  title : String
  company_name : String
  locations : List String
  url : String
  season : String
  sponsorship : String
  active : Bool
  is_visible : Bool
deriving DecidableEq

/-- InternshipRole.to_dict (src/mainbot.py lines 54-65): field by
field conversion of a record to its dictionary form. -/
def InternshipRole.to_dict (r : InternshipRole) : RoleDict :=
  { title := r.title
    company_name := r.company_name
    locations := r.locations
    url := r.url
    season := r.season
    sponsorship := r.sponsorship
    active := r.active
    is_visible := r.is_visible }

/-- InternshipRole.from_dict (src/mainbot.py lines 40-52): field by
field construction of a record from its dictionary form. -/
def InternshipRole.from_dict (d : RoleDict) : InternshipRole :=
  { title := d.title
    company_name := d.company_name
    locations := d.locations
    url := d.url
    season := d.season
    sponsorship := d.sponsorship
    active := d.active
    is_visible := d.is_visible }

/-- The save half of the snapshot checkpoint (src/mainbot.py lines
276-277): check_roles writes json.dump of the list of to_dict
dictionaries. The JSON encoding itself is the Python standard
library, an external collaborator; the engine only depends on the
decoded list-of-dictionaries form, which is what we model. -/
def savePreviousData (roles : List InternshipRole) : List RoleDict :=
  roles.map InternshipRole.to_dict

/-- The load half of the snapshot checkpoint (src/mainbot.py lines
236-239): check_roles maps InternshipRole.from_dict over the decoded
JSON list. -/
def loadPreviousData (data : List RoleDict) : List InternshipRole :=
  data.map InternshipRole.from_dict

/-- The identity of a record: the (title, company_name) pair used as
the dictionary key in check_roles (src/mainbot.py lines 249, 252). -/
def roleKey (r : InternshipRole) : String × String :=
  (r.title, r.company_name)

/-- Models building old_roles_dict by the comprehension on line 249
of src/mainbot.py and then calling .get(key): the comprehension
writes entries in list order, so for a duplicated key the LAST
record in the list wins. Recursion checks the tail first, which is
exactly that last-wins behaviour. -/
def lookupRole : List InternshipRole → String × String → Option InternshipRole
  | [], _ => none
  | r :: rest, k =>
    match lookupRole rest k with
    | some q => some q
    | none => if roleKey r = k then some r else none

/-- The diff loop inside InternshipBot.check_roles (src/mainbot.py
lines 246-263): iterate over the current snapshot in order; a record
whose key is found in the baseline contributes to deactivated_roles
exactly when the baseline record is active and the current one is
not; a record whose key is absent contributes to new_roles exactly
when it is visible and active. Returns (new_roles,
deactivated_roles), both in iteration order. -/
def checkRolesDiff (old_data : List InternshipRole) :
    List InternshipRole → List InternshipRole × List InternshipRole
  | [] => ([], [])
  | new_role :: rest =>
    let acc := checkRolesDiff old_data rest
    match lookupRole old_data (roleKey new_role) with
    | some old_role =>
      if old_role.active && !new_role.active then (acc.1, new_role :: acc.2) else acc
    | none =>
      if new_role.is_visible && new_role.active then (new_role :: acc.1, acc.2) else acc

/-- One classified diff event, carrying the current record. -/
inductive DiffEvent where
  | appeared (role : InternshipRole)
  | deactivated (role : InternshipRole)
deriving DecidableEq

/-- The record carried by an event. -/
def DiffEvent.role : DiffEvent → InternshipRole
  | .appeared r => r
  | .deactivated r => r

/-- The event sequence of one check_roles cycle: the source sends
all new-role messages first (src/mainbot.py lines 266-268), then all
deactivation messages (lines 271-273). -/
def diff (old_data new_data : List InternshipRole) : List DiffEvent :=
  ((checkRolesDiff old_data new_data).1.map DiffEvent.appeared)
    ++ ((checkRolesDiff old_data new_data).2.map DiffEvent.deactivated)

/-- The snapshot invariant of the spec data model: no two records of
the list share an identity. -/
def uniqueIds : List InternshipRole → Bool
  | [] => true
  | r :: rest => rest.all (fun q => decide (roleKey q ≠ roleKey r)) && uniqueIds rest

/-- Condition under which the diff loop appends a record to
new_roles: its key is absent from the baseline and it is visible and
active. -/
def appearedPred (old_data : List InternshipRole) (r : InternshipRole) : Bool :=
  (lookupRole old_data (roleKey r)).isNone && r.is_visible && r.active

/-- Condition under which the diff loop appends a record to
deactivated_roles: its key maps to a baseline record that is active
while the current record is not. -/
def deactivatedPred (old_data : List InternshipRole) (r : InternshipRole) : Bool :=
  match lookupRole old_data (roleKey r) with
  | some q => q.active && !r.active
  | none => false

theorem checkRolesDiff_eq_filter (old_data new_data : List InternshipRole) :
    checkRolesDiff old_data new_data =
      (new_data.filter (appearedPred old_data), new_data.filter (deactivatedPred old_data)) := by
  induction new_data with
  | nil => rfl
  | cons r rest ih =>
    simp only [checkRolesDiff, ih, List.filter_cons]
    cases h : lookupRole old_data (roleKey r) with
    | none =>
      simp only [appearedPred, deactivatedPred, h, Option.isNone_none, Bool.true_and]
      by_cases hv : (r.is_visible && r.active) = true
      · simp [hv]
      · simp [hv]
    | some q =>
      simp only [appearedPred, deactivatedPred, h, Option.isNone_some, Bool.false_and]
      by_cases hd : (q.active && !r.active) = true
      · simp [hd]
      · simp [hd]

theorem diff_eq_filter (old_data new_data : List InternshipRole) :
    diff old_data new_data =
      ((new_data.filter (appearedPred old_data)).map DiffEvent.appeared)
        ++ ((new_data.filter (deactivatedPred old_data)).map DiffEvent.deactivated) := by
  simp [diff, checkRolesDiff_eq_filter]

theorem lookupRole_mem {l : List InternshipRole} {k : String × String}
    {q : InternshipRole} (h : lookupRole l k = some q) : q ∈ l ∧ roleKey q = k := by
  induction l with
  | nil => simp [lookupRole] at h
  | cons r rest ih =>
    simp only [lookupRole] at h
    cases hrest : lookupRole rest k with
    | some p =>
      rw [hrest] at h
      have hpq : p = q := by simpa using h
      subst hpq
      rcases ih hrest with ⟨hm, hk⟩
      exact ⟨List.mem_cons_of_mem r hm, hk⟩
    | none =>
      rw [hrest] at h
      by_cases hk : roleKey r = k
      · rw [if_pos hk] at h
        have hrq : r = q := by simpa using h
        subst hrq
        exact ⟨List.mem_cons_self r rest, hk⟩
      · rw [if_neg hk] at h
        simp at h

theorem lookupRole_ne_none {l : List InternshipRole} {r : InternshipRole}
    (hm : r ∈ l) : lookupRole l (roleKey r) ≠ none := by
  induction l with
  | nil => simp at hm
  | cons x rest ih =>
    simp only [lookupRole]
    cases hrest : lookupRole rest (roleKey r) with
    | some p => simp
    | none =>
      rcases List.mem_cons.mp hm with hx | hr
      · subst hx
        simp
      · exact absurd hrest (ih hr)

theorem uniqueIds_cons {r : InternshipRole} {rest : List InternshipRole}
    (h : uniqueIds (r :: rest) = true) :
    (∀ q ∈ rest, roleKey q ≠ roleKey r) ∧ uniqueIds rest = true := by
  simp only [uniqueIds, Bool.and_eq_true, List.all_eq_true, decide_eq_true_eq] at h
  exact h

theorem lookupRole_of_uniqueIds {l : List InternshipRole} {q : InternshipRole}
    (hu : uniqueIds l = true) (hm : q ∈ l) : lookupRole l (roleKey q) = some q := by
  induction l with
  | nil => simp at hm
  | cons r rest ih =>
    rcases uniqueIds_cons hu with ⟨hall, hrest⟩
    rcases List.mem_cons.mp hm with hq | hq
    · subst hq
      simp only [lookupRole]
      cases hlk : lookupRole rest (roleKey q) with
      | some p =>
        rcases lookupRole_mem hlk with ⟨hp, hpk⟩
        exact absurd hpk (hall p hp)
      | none => simp
    · simp only [lookupRole, ih hrest hq]

theorem mem_of_uniqueIds_eq_key {l : List InternshipRole} {a b : InternshipRole}
    (hu : uniqueIds l = true) (ha : a ∈ l) (hb : b ∈ l)
    (hk : roleKey a = roleKey b) : a = b := by
  have h1 : lookupRole l (roleKey a) = some a := lookupRole_of_uniqueIds hu ha
  have h2 : lookupRole l (roleKey b) = some b := lookupRole_of_uniqueIds hu hb
  rw [hk, h2] at h1
  simpa using h1.symm

theorem count_eq_one_of_uniqueIds {l : List InternshipRole} {r : InternshipRole}
    (hu : uniqueIds l = true) (hm : r ∈ l) : l.count r = 1 := by
  induction l with
  | nil => simp at hm
  | cons x rest ih =>
    rcases uniqueIds_cons hu with ⟨hall, hrest⟩
    rcases List.mem_cons.mp hm with hx | hr
    · subst hx
      have hnot : r ∉ rest := fun hmem => (hall r hmem) rfl
      rw [List.count_cons]
      simp [List.count_eq_zero.mpr hnot]
    · have hne : x ≠ r := by
        intro he
        exact (hall r hr) (by rw [he])
      rw [List.count_cons]
      simp [ih hrest hr, hne]

theorem appeared_injective : Function.Injective DiffEvent.appeared := by
  intro a b h
  injection h

theorem deactivated_injective : Function.Injective DiffEvent.deactivated := by
  intro a b h
  injection h

theorem count_appeared_diff (old_data new_data : List InternshipRole)
    (r : InternshipRole) :
    (diff old_data new_data).count (DiffEvent.appeared r) =
      (new_data.filter (appearedPred old_data)).count r := by
  rw [diff_eq_filter, List.count_append]
  have h1 := List.count_map_of_injective
    (new_data.filter (appearedPred old_data)) DiffEvent.appeared appeared_injective r
  have h2 : ((new_data.filter (deactivatedPred old_data)).map
      DiffEvent.deactivated).count (DiffEvent.appeared r) = 0 := by
    refine List.count_eq_zero.mpr ?_
    intro hmem
    rcases List.mem_map.mp hmem with ⟨a, _, ha⟩
    exact DiffEvent.noConfusion ha
  rw [h1, h2]
  omega

theorem count_deactivated_diff (old_data new_data : List InternshipRole)
    (r : InternshipRole) :
    (diff old_data new_data).count (DiffEvent.deactivated r) =
      (new_data.filter (deactivatedPred old_data)).count r := by
  rw [diff_eq_filter, List.count_append]
  have h1 := List.count_map_of_injective
    (new_data.filter (deactivatedPred old_data)) DiffEvent.deactivated
    deactivated_injective r
  have h2 : ((new_data.filter (appearedPred old_data)).map
      DiffEvent.appeared).count (DiffEvent.deactivated r) = 0 := by
    refine List.count_eq_zero.mpr ?_
    intro hmem
    rcases List.mem_map.mp hmem with ⟨a, _, ha⟩
    exact DiffEvent.noConfusion ha
  rw [h1, h2]
  omega

theorem mem_diff_cases {old_data new_data : List InternshipRole} {e : DiffEvent}
    (h : e ∈ diff old_data new_data) :
    e.role ∈ new_data ∧
      ((e = DiffEvent.appeared e.role ∧ appearedPred old_data e.role = true) ∨
        (e = DiffEvent.deactivated e.role ∧ deactivatedPred old_data e.role = true)) := by
  rw [diff_eq_filter] at h
  rcases List.mem_append.mp h with hm | hm
  · rcases List.mem_map.mp hm with ⟨a, hf, ha⟩
    rcases List.mem_filter.mp hf with ⟨hmem, hp⟩
    subst ha
    exact ⟨hmem, Or.inl ⟨rfl, hp⟩⟩
  · rcases List.mem_map.mp hm with ⟨a, hf, ha⟩
    rcases List.mem_filter.mp hf with ⟨hmem, hp⟩
    subst ha
    exact ⟨hmem, Or.inr ⟨rfl, hp⟩⟩

/-- The deduplication described by the data-model invariant of the
spec, in its words: within one snapshot, duplicates are resolved by
last wins, so only the last occurrence of each identity is kept. -/
def dedupLastWins : List InternshipRole → List InternshipRole
  | [] => []
  | r :: rest =>
    if rest.any (fun q => decide (roleKey q = roleKey r)) then dedupLastWins rest
    else r :: dedupLastWins rest

theorem lookupRole_dedupLastWins (l : List InternshipRole) (k : String × String) :
    lookupRole (dedupLastWins l) k = lookupRole l k := by
  induction l with
  | nil => rfl
  | cons r rest ih =>
    by_cases h : rest.any (fun q => decide (roleKey q = roleKey r)) = true
    · rw [dedupLastWins, if_pos h, ih]
      show lookupRole rest k =
        (match lookupRole rest k with
          | some q => some q
          | none => if roleKey r = k then some r else none)
      cases hrest : lookupRole rest k with
      | some p => rfl
      | none =>
        rcases List.any_eq_true.mp h with ⟨q, hq, hkq⟩
        have hkq2 : roleKey q = roleKey r := of_decide_eq_true hkq
        have hne : roleKey r ≠ k := by
          intro he
          have := lookupRole_ne_none hq
          rw [hkq2, he] at this
          exact this hrest
        rw [if_neg hne]
    · rw [dedupLastWins, if_neg h]
      show (match lookupRole (dedupLastWins rest) k with
          | some q => some q
          | none => if roleKey r = k then some r else none) =
        (match lookupRole rest k with
          | some q => some q
          | none => if roleKey r = k then some r else none)
      rw [ih]

/-- A concrete active, visible listing used in the witnesses. -/
def roleActive : InternshipRole :=
  { title := "Software Engineering Intern"
    company_name := "Acme"
    locations := ["NYC"]
    url := "https://acme.example/jobs/1"
    season := "Summer 2025"
    sponsorship := "Offers Sponsorship"
    active := true
    is_visible := true }

/-- The same listing after deactivation. -/
def roleInactive : InternshipRole :=
  { roleActive with active := false }

/-- The same listing with a changed sponsorship field only. -/
def roleSponsorChanged : InternshipRole :=
  { roleActive with sponsorship := "Does Not Offer Sponsorship" }

/-- An inactive record sharing its identity with roleActive; paired
with roleActive it forms a snapshot with a duplicated identity. -/
def dupInactive : InternshipRole :=
  { roleActive with active := false, url := "https://acme.example/jobs/2" }

/-- C2: over snapshots with unique identities, the diff emits exactly
one Deactivated event, carrying the current record, for each identity
that is active in the previous snapshot and inactive in the current
one; and it emits no event at all for an identity present in the
previous snapshot but absent from the current one. -/
theorem c2_deactivated_events (prev cur : List InternshipRole)
    (hp : uniqueIds prev = true) (hc : uniqueIds cur = true) :
    (∀ q ∈ prev, ∀ r ∈ cur, roleKey q = roleKey r → q.active = true → r.active = false →
      (diff prev cur).count (DiffEvent.deactivated r) = 1) ∧
    (∀ q ∈ prev, (∀ r ∈ cur, roleKey r ≠ roleKey q) →
      ∀ e ∈ diff prev cur, roleKey e.role ≠ roleKey q) := by
  constructor
  · intro q hq r hr hk hqa hra
    rw [count_deactivated_diff]
    have hlk : lookupRole prev (roleKey r) = some q := by
      rw [← hk]
      exact lookupRole_of_uniqueIds hp hq
    have hpred : deactivatedPred prev r = true := by
      simp [deactivatedPred, hlk, hqa, hra]
    rw [List.count_filter hpred]
    exact count_eq_one_of_uniqueIds hc hr
  · intro q hq habs e he
    exact fun hkey => habs e.role (mem_diff_cases he).1 hkey

theorem c2_witness :
    (diff [roleActive] [roleInactive]).count (DiffEvent.deactivated roleInactive) = 1 :=
  (c2_deactivated_events [roleActive] [roleInactive] (by decide) (by decide)).1
    roleActive (by simp) roleInactive (by simp) (by decide) (by decide) (by decide)

/-- C3: over snapshots with unique identities, a current record whose
identity is absent from the previous snapshot yields exactly one
Appeared event when it is visible and active, and no event at all
otherwise. -/
theorem c3_appeared_events (prev cur : List InternshipRole)
    (_hp : uniqueIds prev = true) (hc : uniqueIds cur = true) :
    ∀ r ∈ cur, (∀ q ∈ prev, roleKey q ≠ roleKey r) →
      ((r.is_visible && r.active) = true →
        (diff prev cur).count (DiffEvent.appeared r) = 1) ∧
      ((r.is_visible && r.active) = false →
        ∀ e ∈ diff prev cur, e.role ≠ r) := by
  intro r hr habs
  have hlk : lookupRole prev (roleKey r) = none := by
    cases hlk : lookupRole prev (roleKey r) with
    | none => rfl
    | some q =>
      rcases lookupRole_mem hlk with ⟨hq, hk⟩
      exact absurd hk (habs q hq)
  constructor
  · intro hva
    rw [count_appeared_diff]
    have hpred : appearedPred prev r = true := by
      simp only [appearedPred, hlk, Option.isNone_none, Bool.true_and]
      exact hva
    rw [List.count_filter hpred]
    exact count_eq_one_of_uniqueIds hc hr
  · intro hva e he hrole
    rcases (mem_diff_cases he).2 with ⟨-, hpred⟩ | ⟨-, hpred⟩
    · rw [hrole] at hpred
      simp only [appearedPred, hlk, Option.isNone_none, Bool.true_and] at hpred
      rw [hva] at hpred
      exact Bool.false_ne_true hpred
    · rw [hrole] at hpred
      simp [deactivatedPred, hlk] at hpred

theorem c3_witness :
    (diff [] [roleActive]).count (DiffEvent.appeared roleActive) = 1 :=
  ((c3_appeared_events [] [roleActive] rfl (by decide))
    roleActive (by simp) (by simp)).1 (by decide)

/-- C8: over snapshots with unique identities, a record whose
identity is present in both snapshots with an unchanged active flag
produces no event, whatever happened to its other fields. -/
theorem c8_no_event_when_active_unchanged (prev cur : List InternshipRole)
    (hp : uniqueIds prev = true) (hc : uniqueIds cur = true) :
    ∀ q ∈ prev, ∀ r ∈ cur, roleKey q = roleKey r → q.active = r.active →
      ∀ e ∈ diff prev cur, roleKey e.role ≠ roleKey r := by
  intro q hq r hr hk ha e he hkey
  rcases mem_diff_cases he with ⟨hmem, hcase⟩
  rcases hcase with ⟨-, hpred⟩ | ⟨-, hpred⟩
  · have hlk : lookupRole prev (roleKey e.role) ≠ none := by
      rw [hkey, ← hk]
      exact lookupRole_ne_none hq
    simp only [appearedPred, Bool.and_eq_true] at hpred
    exact hlk (Option.isNone_iff_eq_none.mp hpred.1.1)
  · have her : e.role = r := mem_of_uniqueIds_eq_key hc hmem hr hkey
    have hlk : lookupRole prev (roleKey r) = some q := by
      rw [← hk]
      exact lookupRole_of_uniqueIds hp hq
    rw [her] at hpred
    simp only [deactivatedPred, hlk, ha, Bool.and_eq_true] at hpred
    rcases hpred with ⟨h1, h2⟩
    rw [h1] at h2
    exact Bool.false_ne_true h2

theorem c8_witness :
    (diff [roleActive] [roleSponsorChanged]).count
      (DiffEvent.appeared roleSponsorChanged) = 0 := by
  refine List.count_eq_zero.mpr ?_
  intro hmem
  exact (c8_no_event_when_active_unchanged [roleActive] [roleSponsorChanged]
    (by decide) (by decide) roleActive (by simp) roleSponsorChanged (by simp)
    (by decide) (by decide) (DiffEvent.appeared roleSponsorChanged) hmem) (by decide)

/-- C6 counterexample: a snapshot holding two records with the same
identity, an inactive one listed before an active one, diffs against
itself to a nonempty event list, so diff(S, S) is not empty for every
snapshot. -/
theorem c6_counterexample :
    diff [dupInactive, roleActive] [dupInactive, roleActive] ≠ [] := by decide

/-- C6 (amended): for every snapshot satisfying the unique-identity
invariant of the data model, the diff of the snapshot against itself
is empty. -/
theorem c6_diff_self_empty (S : List InternshipRole) (h : uniqueIds S = true) :
    diff S S = [] := by
  rw [diff_eq_filter]
  have h1 : S.filter (appearedPred S) = [] := by
    refine List.filter_eq_nil_iff.mpr ?_
    intro a ha
    simp [appearedPred, lookupRole_of_uniqueIds h ha]
  have h2 : S.filter (deactivatedPred S) = [] := by
    refine List.filter_eq_nil_iff.mpr ?_
    intro a ha
    simp [deactivatedPred, lookupRole_of_uniqueIds h ha]
  rw [h1, h2]
  rfl

theorem c6_witness : diff [roleActive] [roleActive] = [] :=
  c6_diff_self_empty [roleActive] (by decide)

/-- C9 counterexample: duplicates in the current snapshot are not
resolved last wins; a current snapshot listing the same record twice
emits two Appeared events, while keeping only the last occurrence
would emit one. -/
theorem c9_counterexample :
    diff [] [roleActive, roleActive] ≠
      diff [] (dedupLastWins [roleActive, roleActive]) := by decide

/-- C9 (amended): duplicates in the baseline snapshot are resolved
last wins: the diff is unchanged when the baseline is replaced by its
last-occurrence deduplication. Duplicates in the current snapshot are
processed occurrence by occurrence. -/
theorem c9_baseline_last_wins (prev cur : List InternshipRole) :
    diff prev cur = diff (dedupLastWins prev) cur := by
  rw [diff_eq_filter, diff_eq_filter]
  have ha : cur.filter (appearedPred prev) =
      cur.filter (appearedPred (dedupLastWins prev)) :=
    List.filter_congr fun x _ => by
      simp [appearedPred, lookupRole_dedupLastWins]
  have hd : cur.filter (deactivatedPred prev) =
      cur.filter (deactivatedPred (dedupLastWins prev)) :=
    List.filter_congr fun x _ => by
      simp [deactivatedPred, lookupRole_dedupLastWins]
  rw [ha, hd]

/-- The per-channel delivery state owned by InternshipBot
(src/mainbot.py lines 151-152): the set self.failed_channels and the
dictionary self.channel_failure_counts. The set is modelled by its
membership function and the dictionary by its total lookup, which is
faithful because the source reads the dictionary only through
.get(channel_id, 0) with default 0. -/
structure DispatchState where
  failedChannels : String → Bool
  failureCounts : String → Nat

/-- The state of a bot that has just been constructed: no failed
channels and no recorded failure counts. -/
def initialDispatchState : DispatchState :=
  { failedChannels := fun _ => false, failureCounts := fun _ => 0 }

/-- Adds a channel to self.failed_channels. -/
def addFailedChannel (s : DispatchState) (channel_id : String) : DispatchState :=
  { s with failedChannels := fun d => if d = channel_id then true else s.failedChannels d }

/-- Sets the failure count of a channel. The source also removes the
entry on success via .pop(channel_id, None); since the dictionary is
only ever read with default 0, removal is modelled as setting 0. -/
def setFailureCount (s : DispatchState) (channel_id : String) (n : Nat) : DispatchState :=
  { s with failureCounts := fun d => if d = channel_id then n else s.failureCounts d }

/-- InternshipBot._handle_channel_failure (src/mainbot.py lines
206-216): increment the failure count of the channel and, when the
new count has reached self.max_retries, add the channel to
self.failed_channels. -/
def handle_channel_failure (max_retries : Nat) (s : DispatchState)
    (channel_id : String) : DispatchState :=
  let n := s.failureCounts channel_id + 1
  let s1 := setFailureCount s channel_id n
  if max_retries ≤ n then addFailedChannel s1 channel_id else s1

/-- The exception classes handled together by the outer except clause
of send_message (src/mainbot.py lines 198-204). -/
inductive DiscordError where
  | httpError
  | invalidArgument
  | forbidden
  | notFound
deriving DecidableEq

/-- What the Discord transport does during one send_message call,
one constructor per control path of src/mainbot.py lines 174-204:
fetch_channel raising NotFound (line 181), fetch_channel raising
Forbidden (line 184), a resolved channel that is not a TextChannel
(line 194), a successful TextChannel send (line 190), and channel.send
raising one of the four handled exception classes (line 198). -/
inductive AttemptOutcome where
  | fetchNotFound
  | fetchForbidden
  | notTextChannel
  | sendOk
  | sendRaised (e : DiscordError)
deriving DecidableEq

/-- The observable result of one send_message call: the updated
delivery state, whether the call got past the failed-channel skip,
and whether a message was actually delivered. -/
structure SendCallResult where
  state : DispatchState
  attempted : Bool
  sent : Bool

/-- InternshipBot.send_message (src/mainbot.py lines 168-204): skip
channels already in self.failed_channels; a NotFound on fetch goes to
_handle_channel_failure; a Forbidden on fetch adds the channel to
self.failed_channels directly; a non-text channel likewise; a
successful send clears the failure count; the four exception classes
raised by the send go to _handle_channel_failure. -/
def send_message (max_retries : Nat) (s : DispatchState) (channel_id : String)
    (outcome : AttemptOutcome) : SendCallResult :=
  if s.failedChannels channel_id then
    { state := s, attempted := false, sent := false }
  else
    match outcome with
    | .fetchNotFound =>
      { state := handle_channel_failure max_retries s channel_id
        attempted := true, sent := false }
    | .fetchForbidden =>
      { state := addFailedChannel s channel_id, attempted := true, sent := false }
    | .notTextChannel =>
      { state := addFailedChannel s channel_id, attempted := true, sent := false }
    | .sendOk =>
      { state := setFailureCount s channel_id 0, attempted := true, sent := true }
    | .sendRaised _ =>
      { state := handle_channel_failure max_retries s channel_id
        attempted := true, sent := false }

/-- Runs a sequence of send_message calls, each described by its
channel and transport outcome, threading the delivery state. -/
def runTrace (max_retries : Nat) (s : DispatchState) :
    List (String × AttemptOutcome) → DispatchState
  | [] => s
  | step :: rest =>
    runTrace max_retries (send_message max_retries s step.1 step.2).state rest

theorem addFailedChannel_failed_self (s : DispatchState) (c : String) :
    (addFailedChannel s c).failedChannels c = true := by
  simp [addFailedChannel]

theorem addFailedChannel_preserves_failed {s : DispatchState} {c : String}
    (h : s.failedChannels c = true) (x : String) :
    (addFailedChannel s x).failedChannels c = true := by
  by_cases hcx : c = x <;> simp [addFailedChannel, hcx, h]

theorem handle_channel_failure_preserves_failed {max_retries : Nat}
    {s : DispatchState} {c : String} (h : s.failedChannels c = true) (x : String) :
    (handle_channel_failure max_retries s x).failedChannels c = true := by
  unfold handle_channel_failure
  dsimp only
  split
  · exact addFailedChannel_preserves_failed (by simp [setFailureCount, h]) x
  · simp [setFailureCount, h]

theorem send_message_preserves_failed {max_retries : Nat} {s : DispatchState}
    {c : String} (h : s.failedChannels c = true) (x : String) (o : AttemptOutcome) :
    ((send_message max_retries s x o).state).failedChannels c = true := by
  unfold send_message
  by_cases hx : s.failedChannels x
  · simp [hx, h]
  · simp only [hx, Bool.false_eq_true, if_false]
    cases o with
    | fetchNotFound => exact handle_channel_failure_preserves_failed h x
    | fetchForbidden => exact addFailedChannel_preserves_failed h x
    | notTextChannel => exact addFailedChannel_preserves_failed h x
    | sendOk => simp [setFailureCount, h]
    | sendRaised e => exact handle_channel_failure_preserves_failed h x

theorem runTrace_preserves_failed {max_retries : Nat} {s : DispatchState}
    {c : String} (h : s.failedChannels c = true)
    (trace : List (String × AttemptOutcome)) :
    (runTrace max_retries s trace).failedChannels c = true := by
  induction trace generalizing s with
  | nil => exact h
  | cons step rest ih =>
    exact ih (send_message_preserves_failed h step.1 step.2)

theorem send_message_skips_failed {max_retries : Nat} {s : DispatchState}
    {c : String} (h : s.failedChannels c = true) (o : AttemptOutcome) :
    send_message max_retries s c o = { state := s, attempted := false, sent := false } := by
  unfold send_message
  simp [h]

/-- C1 counterexample: a delivery attempt on a fresh channel that
fails with the explicit permission denial raised by the send call
itself does not blacklist the channel; it increments the retry
counter instead, so permission denial does not always bypass the
counter. -/
theorem c1_counterexample :
    ((send_message 3 initialDispatchState "alerts"
        (AttemptOutcome.sendRaised DiscordError.forbidden)).state.failedChannels "alerts"
      = false)
    ∧ ((send_message 3 initialDispatchState "alerts"
        (AttemptOutcome.sendRaised DiscordError.forbidden)).state.failureCounts "alerts"
      = 1) := by
  constructor
  · rfl
  · simp [send_message, initialDispatchState, handle_channel_failure, setFailureCount,
      addFailedChannel]

/-- C1 (amended): permission denial raised while fetching the channel
blacklists the channel immediately, for every prior failure count,
leaving every count unchanged; permission denial raised by the send
call itself is instead handled like a recoverable transport error and
increments the counter by one. -/
theorem c1_permission_denial (max_retries : Nat) (s : DispatchState)
    (channel_id : String) (h : s.failedChannels channel_id = false) :
    ((send_message max_retries s channel_id
        AttemptOutcome.fetchForbidden).state.failedChannels channel_id = true)
    ∧ (∀ d, (send_message max_retries s channel_id
        AttemptOutcome.fetchForbidden).state.failureCounts d = s.failureCounts d)
    ∧ (∀ e, (send_message max_retries s channel_id
        (AttemptOutcome.sendRaised e)).state.failureCounts channel_id =
          s.failureCounts channel_id + 1) := by
  refine ⟨?_, ?_, ?_⟩
  · simp [send_message, h, addFailedChannel]
  · intro d
    simp [send_message, h, addFailedChannel]
  · intro e
    simp only [send_message, h, Bool.false_eq_true, if_false]
    unfold handle_channel_failure
    dsimp only
    split <;> simp [addFailedChannel, setFailureCount]

theorem c1_witness :
    ((send_message 3 initialDispatchState "alerts"
        AttemptOutcome.fetchForbidden).state.failedChannels "alerts" = true)
    ∧ ((send_message 3 initialDispatchState "alerts"
        (AttemptOutcome.sendRaised DiscordError.forbidden)).state.failureCounts "alerts" =
          initialDispatchState.failureCounts "alerts" + 1) :=
  ⟨(c1_permission_denial 3 initialDispatchState "alerts" rfl).1,
   (c1_permission_denial 3 initialDispatchState "alerts" rfl).2.2 DiscordError.forbidden⟩

/-- A delivery state in which every channel has already failed twice
and none is blacklisted. -/
def twoFailuresState : DispatchState :=
  { failedChannels := fun _ => false, failureCounts := fun _ => 2 }

/-- C4: a recoverable failure that brings the failure count of a
non-blacklisted channel up to the retry threshold blacklists it, and
afterwards, whatever further calls run, every send_message call for
that channel is skipped with the state unchanged, no attempt made and
nothing sent — the channel never leaves the blacklist. -/
theorem c4_threshold_blacklists_forever (max_retries : Nat) (s : DispatchState)
    (channel_id : String) (o : AttemptOutcome)
    (hnb : s.failedChannels channel_id = false)
    (hth : max_retries ≤ s.failureCounts channel_id + 1)
    (hrec : o = AttemptOutcome.fetchNotFound ∨ ∃ e, o = AttemptOutcome.sendRaised e) :
    ((send_message max_retries s channel_id o).state.failedChannels channel_id = true)
    ∧ ∀ trace : List (String × AttemptOutcome),
        ((runTrace max_retries (send_message max_retries s channel_id o).state
            trace).failedChannels channel_id = true)
        ∧ ∀ o2, send_message max_retries
            (runTrace max_retries (send_message max_retries s channel_id o).state trace)
            channel_id o2 =
          { state :=
              runTrace max_retries (send_message max_retries s channel_id o).state trace
            attempted := false, sent := false } := by
  have hb : (send_message max_retries s channel_id o).state.failedChannels channel_id
      = true := by
    have hstep : (send_message max_retries s channel_id o).state =
        handle_channel_failure max_retries s channel_id := by
      rcases hrec with h | ⟨e, h⟩ <;> subst h <;> simp [send_message, hnb]
    rw [hstep]
    unfold handle_channel_failure
    dsimp only
    rw [if_pos hth]
    exact addFailedChannel_failed_self _ _
  refine ⟨hb, fun trace => ?_⟩
  have hbt := @runTrace_preserves_failed max_retries _ _ hb trace
  exact ⟨hbt, fun o2 => send_message_skips_failed hbt o2⟩

theorem c4_witness :
    ((send_message 3 twoFailuresState "alerts"
        AttemptOutcome.fetchNotFound).state.failedChannels "alerts" = true)
    ∧ (runTrace 3 (send_message 3 twoFailuresState "alerts"
          AttemptOutcome.fetchNotFound).state
        [("alerts", AttemptOutcome.sendOk)]).failedChannels "alerts" = true :=
  ⟨(c4_threshold_blacklists_forever 3 twoFailuresState "alerts"
      AttemptOutcome.fetchNotFound rfl (by decide) (Or.inl rfl)).1,
   ((c4_threshold_blacklists_forever 3 twoFailuresState "alerts"
      AttemptOutcome.fetchNotFound rfl (by decide) (Or.inl rfl)).2
        [("alerts", AttemptOutcome.sendOk)]).1⟩

/-- C10: for a channel not yet blacklisted whose resolved channel
object is not a text channel, send_message delivers nothing, adds the
channel to the blacklist at once, and leaves every failure count
unchanged. -/
theorem c10_non_text_channel (max_retries : Nat) (s : DispatchState)
    (channel_id : String) (h : s.failedChannels channel_id = false) :
    ((send_message max_retries s channel_id AttemptOutcome.notTextChannel).sent = false)
    ∧ ((send_message max_retries s channel_id
        AttemptOutcome.notTextChannel).state.failedChannels channel_id = true)
    ∧ (∀ d, (send_message max_retries s channel_id
        AttemptOutcome.notTextChannel).state.failureCounts d = s.failureCounts d) := by
  refine ⟨?_, ?_, ?_⟩
  · simp [send_message, h]
  · simp [send_message, h, addFailedChannel]
  · intro d
    simp [send_message, h, addFailedChannel]

theorem c10_witness :
    ((send_message 3 initialDispatchState "voice-room"
        AttemptOutcome.notTextChannel).sent = false)
    ∧ ((send_message 3 initialDispatchState "voice-room"
        AttemptOutcome.notTextChannel).state.failedChannels "voice-room" = true)
    ∧ ((send_message 3 initialDispatchState "voice-room"
        AttemptOutcome.notTextChannel).state.failureCounts "voice-room" =
          initialDispatchState.failureCounts "voice-room") :=
  ⟨(c10_non_text_channel 3 initialDispatchState "voice-room" rfl).1,
   (c10_non_text_channel 3 initialDispatchState "voice-room" rfl).2.1,
   (c10_non_text_channel 3 initialDispatchState "voice-room" rfl).2.2 "voice-room"⟩

/-- C7: from_dict inverts to_dict record by record, and the persisted
checkpoint round-trips: loading what save wrote returns the same list
of records. -/
theorem c7_save_load_roundtrip :
    (∀ r : InternshipRole, InternshipRole.from_dict (InternshipRole.to_dict r) = r)
    ∧ ∀ roles : List InternshipRole, loadPreviousData (savePreviousData roles) = roles := by
  constructor
  · intro r
    rfl
  · intro roles
    induction roles with
    | nil => rfl
    | cons r rest ih =>
      show InternshipRole.from_dict (InternshipRole.to_dict r) ::
          loadPreviousData (savePreviousData rest) = r :: rest
      rw [ih]
      rfl

/-- InternshipBot.check_roles as one cycle of the load and diff
pipeline (src/mainbot.py lines 227-263). GitManager.clone_or_update
and read_json can each raise; check_roles installs no handler around
them, so the model propagates either error out of the cycle body. A
missing previous_data.json is not an error: the baseline defaults to
the empty list (lines 242-244). On success the cycle yields the event
sequence and the snapshot that will be persisted as the new baseline. -/
def check_roles (gitResult : Except String Unit)
    (jsonResult : Except String (List InternshipRole))
    (previousData : Option (List InternshipRole)) :
    Except String (List DiffEvent × List InternshipRole) := do
  let _ ← gitResult
  let new_data ← jsonResult
  let old_data := previousData.getD []
  pure (diff old_data new_data, new_data)

/-- C5: evaluation at the failing inputs: when the provider fetch or
the JSON read fails, the error escapes the cycle body itself — the
source installs no handler in check_roles, so what happens to later
cycles is decided entirely by the external task-loop machinery, not
by this code. -/
theorem c5_load_failure_escapes_cycle :
    (check_roles (Except.error "git pull failed") (Except.ok []) none =
      Except.error "git pull failed")
    ∧ (check_roles (Except.ok ()) (Except.error "listings.json unreadable") none =
      Except.error "listings.json unreadable") :=
  ⟨rfl, rfl⟩
